import Mathlib

/-!
Shallow embedding of the draft-state synchronization slice of Incarcer/FFA
(file src/unnamed/part_000, a Redux Toolkit `createSlice` named `draft`).

Modelling conventions:
* JS objects used as string-keyed maps (`state.teams`, `team.roster`) are
  association lists in insertion order; property read is first-match lookup,
  property write replaces in place or appends a fresh key at the end, exactly
  as JS preserves insertion order.
* JS arrays are Lean lists; `findIndex`/`find`/`filter`/`push` map to
  first-match search, `List.filter`, and append.
* `undefined`/`null` are `Option.none`.
* The reducers run inside Immer: a reducer body that throws discards the
  whole draft, so the committed store state is unchanged; the thrown
  exception propagates out of `dispatch`.  A throwing run is modelled as
  `Except.error`, a completed run as `Except.ok`.
* The source contains no logging or reporting call of any kind, so the
  list of reports emitted by a completed `processpick` run is always `[]`;
  it is carried explicitly so that claims about reporting are statable.
-/

/-- Player record `{player_id, player_name, position}` as delivered in pick
events and the available pool. -/
structure Player where
  player_id : String
  player_name : String
  position : String
deriving DecidableEq, Repr

/-- One board slot `{pick_number, team_id, player}`; `player` is `null` while
the slot is unfilled. -/
structure Pick where
  pick_number : Nat
  team_id : String
  player : Option Player
deriving DecidableEq, Repr

/-- A team as stored in `state.teams`: only its `roster` object (a mapping
position → array of players) is read or written by the slice. -/
structure Team where
  roster : List (String × List Player)
deriving DecidableEq, Repr

/-- The `selectedplayerdetails` object built by the `fetchplayerhistory`
handlers: `{player, history, loading, error}`; `error` is absent (undefined)
until the rejected handler writes it. -/
structure SelectedPlayerDetail where
  player : Option Player
  history : Option String
  loading : Bool
  error : Option String
deriving DecidableEq, Repr

/-- The draft slice state (the `initialState` object shape). -/
structure DraftState where
  board : List Pick
  teams : List (String × Team)
  availableplayers : List Player
  currentpickindex : Nat
  totalpicks : Nat
  selectedplayerdetails : Option SelectedPlayerDetail
  status : String
  error : Option String
deriving DecidableEq, Repr

/-- The `initialState` constant of the slice. -/
def initialState : DraftState :=
  { board := []
    teams := []
    availableplayers := []
    currentpickindex := 0
    totalpicks := 0
    selectedplayerdetails := none
    status := "idle"
    error := none }

/-- Payload of a `processpick` action (push event "pick made"):
`{pick_number, player}`. -/
structure PickEvent where
  pick_number : Nat
  player : Player
deriving DecidableEq, Repr

/-- JS property read `m[k]` on a string-keyed object modelled as an
association list: first binding wins. -/
def assocGet {α : Type} (m : List (String × α)) (k : String) : Option α :=
  match m with
  | [] => none
  | (k₂, v) :: rest => if k₂ == k then some v else assocGet rest k

/-- JS property write `m[k] = v`: replace the binding in place if the key is
present, otherwise append it (insertion order). -/
def assocSet {α : Type} (m : List (String × α)) (k : String) (v : α) :
    List (String × α) :=
  match m with
  | [] => [(k, v)]
  | (k₂, v₂) :: rest =>
      if k₂ == k then (k, v) :: rest else (k₂, v₂) :: assocSet rest k v

/-- Step 1 of `processpick`: `state.board[pickindexonboard].player = player`,
where `pickindexonboard` is the `findIndex` of the first slot matching the
event's `pick_number`; only that first match is written. -/
def updateFirstSlot (board : List Pick) (n : Nat) (pl : Player) : List Pick :=
  match board with
  | [] => []
  | p :: rest =>
      if p.pick_number == n then { p with player := some pl } :: rest
      else p :: updateFirstSlot rest n pl

/-- Step 3 of `processpick` on a found team: lazily create
`team.roster[player.position]` as `[]` if absent, then `push(player)`. -/
def rosterAppend (team : Team) (pl : Player) : Team :=
  let current :=
    match assocGet team.roster pl.position with
    | none => []
    | some ps => ps
  { team with roster := assocSet team.roster pl.position (current ++ [pl]) }

/-- The `processpick` reducer (src/unnamed/part_000 lines 41–68).

1. `findIndex` the board slot with the event's `pick_number`; if found,
   overwrite its `player` (unconditionally — there is no emptiness check).
2. Filter the event's player out of `availableplayers` by `player_id`.
3. Read `state.board[pickindexonboard].team_id`; when the index is `-1`
   this reads `.team_id` of `undefined` and throws a `TypeError`, which
   Immer turns into a discarded draft plus a propagating exception
   (modelled as `Except.error`).  When the team id resolves in
   `state.teams`, push the player onto `roster[position]`; when it does
   not, silently skip the roster mutation.
4. Unconditionally assign `currentpickindex := pick_number`.

A completed run returns the new state together with the (always empty) list
of emitted reports. -/
def processpick (state : DraftState) (ev : PickEvent) :
    Except String (DraftState × List String) :=
  let board1 :=
    if (state.board.find? (fun p => p.pick_number == ev.pick_number)).isSome
    then updateFirstSlot state.board ev.pick_number ev.player
    else state.board
  let pool1 :=
    state.availableplayers.filter (fun p => p.player_id != ev.player.player_id)
  match board1.find? (fun p => p.pick_number == ev.pick_number) with
  | none => Except.error "TypeError: cannot read team_id of undefined"
  | some slot =>
      let teams1 :=
        match assocGet state.teams slot.team_id with
        | none => state.teams
        | some team => assocSet state.teams slot.team_id (rosterAppend team ev.player)
      Except.ok
        ({ state with
            board := board1
            availableplayers := pool1
            teams := teams1
            currentpickindex := ev.pick_number }, [])

/-- The `clearselectedplayer` reducer: `state.selectedplayerdetails = null`. -/
def clearselectedplayer (state : DraftState) : DraftState :=
  { state with selectedplayerdetails := none }

/-- Snapshot payload shape consumed by `fetchinitialstate.fulfilled`. -/
structure SnapshotPayload where
  board : List Pick
  teams : List (String × Team)
  available_players : List Player
  current_pick_index : Nat
  total_picks : Nat
deriving DecidableEq, Repr

/-- `fetchinitialstate.pending` handler: `state.status = 'loading'`. -/
def fetchinitialstatePending (state : DraftState) : DraftState :=
  { state with status := "loading" }

/-- `fetchinitialstate.fulfilled` handler: install the snapshot fields and set
`status = 'succeeded'`. -/
def fetchinitialstateFulfilled (state : DraftState) (payload : SnapshotPayload) :
    DraftState :=
  { state with
      status := "succeeded"
      board := payload.board
      teams := payload.teams
      availableplayers := payload.available_players
      currentpickindex := payload.current_pick_index
      totalpicks := payload.total_picks }

/-- `fetchinitialstate.rejected` handler: `state.status = 'failed'` and
`state.error = action.error.message`; nothing else is touched. -/
def fetchinitialstateRejected (state : DraftState) (msg : String) : DraftState :=
  { state with status := "failed", error := some msg }

/-- `fetchplayerhistory.pending` handler: find the player in
`availableplayers` (only there — no roster lookup) and seed
`selectedplayerdetails` with `{player, history: null, loading: true}`. -/
def fetchplayerhistoryPending (state : DraftState) (playerid : String) :
    DraftState :=
  let playerfrompool :=
    state.availableplayers.find? (fun p => p.player_id == playerid)
  { state with
      selectedplayerdetails :=
        some { player := playerfrompool, history := none, loading := true,
               error := none } }

/-- `fetchplayerhistory.fulfilled` handler: if `selectedplayerdetails` is
non-null (the only guard — identity is not compared), attach the fetched
history and clear `loading`. -/
def fetchplayerhistoryFulfilled (state : DraftState) (payload : String) :
    DraftState :=
  match state.selectedplayerdetails with
  | none => state
  | some d =>
      { state with
          selectedplayerdetails :=
            some { d with history := some payload, loading := false } }

/-- `fetchplayerhistory.rejected` handler: if `selectedplayerdetails` is
non-null, clear `loading` and store the error payload. -/
def fetchplayerhistoryRejected (state : DraftState) (payload : String) :
    DraftState :=
  match state.selectedplayerdetails with
  | none => state
  | some d =>
      { state with
          selectedplayerdetails :=
            some { d with loading := false, error := some payload } }

/-! ### Derived observations used by the claims -/

/-- Player occupying the first board slot with the given `pick_number`. -/
def boardPlayerAt (board : List Pick) (n : Nat) : Option Player :=
  Option.bind (board.find? (fun p => p.pick_number == n)) (fun p => p.player)

/-- Number of occurrences of a player id in the available pool. -/
def poolCount (pool : List Player) (pid : String) : Nat :=
  (pool.filter (fun p => p.player_id == pid)).length

/-- Total number of occurrences of a player id across every roster sequence
of every team. -/
def rosterCount (teams : List (String × Team)) (pid : String) : Nat :=
  (teams.map (fun t =>
    ((t.2.roster.map (fun r =>
      (r.2.filter (fun p => p.player_id == pid)).length)).sum))).sum

/-! ### Concrete fixtures (the scenario of spec §8: three slots, two teams) -/

/-- Sample player Alpha (a quarterback). -/
def pA : Player := { player_id := "p1", player_name := "Alpha", position := "QB" }

/-- Sample player Bravo (a wide receiver). -/
def pB : Player := { player_id := "p2", player_name := "Bravo", position := "WR" }

/-- A well-formed loaded snapshot state: empty three-slot board, two teams
with empty rosters, both players available. -/
def snap0 : DraftState :=
  { board := [⟨1, "T1", none⟩, ⟨2, "T1", none⟩, ⟨3, "T2", none⟩]
    teams := [("T1", ⟨[]⟩), ("T2", ⟨[]⟩)]
    availableplayers := [pA, pB]
    currentpickindex := 0
    totalpicks := 3
    selectedplayerdetails := none
    status := "succeeded"
    error := none }

/-- The pick event "Alpha taken at slot 1". -/
def ev1 : PickEvent := ⟨1, pA⟩

/-- State after applying `ev1` to `snap0` once. -/
def s1 : DraftState :=
  { snap0 with
      board := [⟨1, "T1", some pA⟩, ⟨2, "T1", none⟩, ⟨3, "T2", none⟩]
      teams := [("T1", ⟨[("QB", [pA])]⟩), ("T2", ⟨[]⟩)]
      availableplayers := [pB]
      currentpickindex := 1 }

/-- State after applying `ev1` a second time: the board and pool are stable
but the roster sequence has grown a duplicate entry. -/
def s2 : DraftState :=
  { s1 with teams := [("T1", ⟨[("QB", [pA, pA])]⟩), ("T2", ⟨[]⟩)] }

/-! ### Helper lemmas about `processpick` -/

/-- Writing the first matching slot preserves which slot `find?` locates and
fills exactly that slot's `player` field. -/
theorem find_updateFirstSlot (board : List Pick) (n : Nat) (pl : Player)
    (slot : Pick)
    (h : board.find? (fun p => p.pick_number == n) = some slot) :
    (updateFirstSlot board n pl).find? (fun p => p.pick_number == n)
      = some { slot with player := some pl } := by
  induction board with
  | nil => simp [List.find?] at h
  | cons head rest ih =>
      by_cases hpn : head.pick_number = n
      · have hb : (head.pick_number == n) = true := beq_iff_eq.mpr hpn
        simp only [List.find?, hb, updateFirstSlot] at h ⊢
        cases h
        rfl
      · have hb : (head.pick_number == n) = false := by
          simp [hpn]
        simp only [List.find?, hb, updateFirstSlot] at h ⊢
        exact ih h

/-- Characterization of a completed `processpick` run: when the board has a
slot matching the event, the run commits, emits no report, fills the first
matching slot, filters the pool, appends to the roster only when the slot's
team id resolves, and overwrites `currentpickindex` with the event's
`pick_number`. -/
theorem processpick_eq_of_found (s : DraftState) (e : PickEvent) (slot : Pick)
    (hfind : s.board.find? (fun p => p.pick_number == e.pick_number) = some slot) :
    processpick s e = Except.ok
      ({ s with
          board := updateFirstSlot s.board e.pick_number e.player
          availableplayers :=
            s.availableplayers.filter (fun p => p.player_id != e.player.player_id)
          teams :=
            match assocGet s.teams slot.team_id with
            | none => s.teams
            | some team => assocSet s.teams slot.team_id (rosterAppend team e.player)
          currentpickindex := e.pick_number }, []) := by
  simp only [processpick, hfind, Option.isSome_some, if_true,
    find_updateFirstSlot s.board e.pick_number e.player slot hfind]

/-- A loaded state in which pick 2 has already been applied
(`currentpickindex = 2`) and slot 1 is still empty: the setting for a
late-arriving lower-numbered event. -/
def snapLate : DraftState :=
  { board := [⟨1, "T1", none⟩, ⟨2, "T1", some pB⟩, ⟨3, "T2", none⟩]
    teams := [("T1", ⟨[("WR", [pB])]⟩), ("T2", ⟨[]⟩)]
    availableplayers := [pA]
    currentpickindex := 2
    totalpicks := 3
    selectedplayerdetails := none
    status := "succeeded"
    error := none }

/-- Result of feeding the late slot-1 event `ev1` to `snapLate`. -/
def sLate : DraftState :=
  { snapLate with
      board := [⟨1, "T1", some pA⟩, ⟨2, "T1", some pB⟩, ⟨3, "T2", none⟩]
      teams := [("T1", ⟨[("WR", [pB]), ("QB", [pA])]⟩), ("T2", ⟨[]⟩)]
      availableplayers := []
      currentpickindex := 1 }

/-- Result of delivering a conflicting event `⟨1, pB⟩` to `s1`, whose slot 1
already holds `pA`. -/
def s6 : DraftState :=
  { s1 with
      board := [⟨1, "T1", some pB⟩, ⟨2, "T1", none⟩, ⟨3, "T2", none⟩]
      teams := [("T1", ⟨[("QB", [pA]), ("WR", [pB])]⟩), ("T2", ⟨[]⟩)]
      availableplayers := [] }

/-- A state whose only board slot names a team id "TX" that is absent from
`teams`. -/
def cs8 : DraftState :=
  { board := [⟨1, "TX", none⟩]
    teams := [("T1", ⟨[]⟩)]
    availableplayers := [pA]
    currentpickindex := 0
    totalpicks := 1
    selectedplayerdetails := none
    status := "succeeded"
    error := none }

/-- Result of feeding `ev1` to `cs8`: slot filled, pool emptied, teams
untouched. -/
def s8 : DraftState :=
  { cs8 with
      board := [⟨1, "TX", some pA⟩]
      availableplayers := []
      currentpickindex := 1 }

/-- A state in which player `pA` has already been drafted: absent from the
pool, present once on team T1's roster. -/
def cs9 : DraftState :=
  { board := [⟨1, "T1", some pA⟩]
    teams := [("T1", ⟨[("QB", [pA])]⟩)]
    availableplayers := []
    currentpickindex := 1
    totalpicks := 1
    selectedplayerdetails := none
    status := "succeeded"
    error := none }

/-! ### Claim theorems -/

/-- Claim C1. The claim states that a duplicate delivery of a pick event is a
no-op on Board, rosters and pool.  The code has no replay guard: re-applying
`ev1` to `s1` (whose slot 1 already holds the non-empty player `pA`) leaves
Board and pool stable but pushes `pA` onto team T1's QB roster a second time,
so the resulting state differs from `s1`. -/
theorem processpick_duplicate_delivery_not_idempotent :
    processpick snap0 ev1 = Except.ok (s1, []) ∧
    boardPlayerAt s1.board 1 = some pA ∧
    processpick s1 ev1 = Except.ok (s2, []) ∧
    s2 ≠ s1 ∧ s2.teams ≠ s1.teams ∧
    s2.board = s1.board ∧ s2.availableplayers = s1.availableplayers :=
  ⟨rfl, rfl, rfl, by decide, by decide, rfl, rfl⟩

/-- Claim C2. The partition invariant fails on a reachable state: after the
duplicate delivery `snap0 → s1 → s2`, player "p1" occurs zero times in the
pool and twice in team T1's roster, so it is not in exactly one container. -/
theorem processpick_duplicate_delivery_breaks_partition :
    processpick snap0 ev1 = Except.ok (s1, []) ∧
    processpick s1 ev1 = Except.ok (s2, []) ∧
    poolCount s1.availableplayers "p1" + rosterCount s1.teams "p1" = 1 ∧
    poolCount s2.availableplayers "p1" + rosterCount s2.teams "p1" = 2 :=
  ⟨rfl, rfl, rfl, rfl⟩

/-- Claim C3. `currentpickindex` is not monotone: the reducer assigns
`state.currentpickindex = pick_number` unconditionally, so the late
lower-numbered event `ev1` drops it from 2 to 1 even though it correctly
fills slot 1. -/
theorem processpick_regresses_currentpickindex :
    snapLate.currentpickindex = 2 ∧
    processpick snapLate ev1 = Except.ok (sLate, []) ∧
    sLate.currentpickindex = 1 ∧
    boardPlayerAt sLate.board 1 = some pA :=
  ⟨rfl, rfl, rfl, rfl⟩

/-- Claim C4. An event whose `pick_number` matches no board slot is not
rejected-and-reported: step 3 reads `.team_id` of `undefined` and the reducer
throws, so the exception escapes the reconciler (modelled as the
`Except.error` outcome). -/
theorem processpick_out_of_range_throws :
    (snap0.board.find? (fun p => p.pick_number == (99 : Nat))).isSome = false ∧
    processpick snap0 ⟨99, pA⟩ =
      Except.error "TypeError: cannot read team_id of undefined" :=
  ⟨rfl, rfl⟩

/-- Claim C5. The fulfilled handler guards only on `selectedplayerdetails`
being non-null, never on player identity: after `select(p1)` then
`select(p2)`, the late completion of p1's fetch attaches p1's history to the
detail whose player is `pB`. -/
theorem stale_history_attaches_to_newer_selection :
    (fetchplayerhistoryPending snap0 "p1").selectedplayerdetails
      = some { player := some pA, history := none, loading := true,
               error := none } ∧
    (fetchplayerhistoryPending (fetchplayerhistoryPending snap0 "p1")
        "p2").selectedplayerdetails
      = some { player := some pB, history := none, loading := true,
               error := none } ∧
    (fetchplayerhistoryFulfilled
        (fetchplayerhistoryPending (fetchplayerhistoryPending snap0 "p1") "p2")
        "historyA").selectedplayerdetails
      = some { player := some pB, history := some "historyA", loading := false,
               error := none } :=
  ⟨rfl, rfl, rfl⟩

/-- Claim C6. Pick permanence fails: slot 1 of `s1` holds `pA`, yet a later
event for the same `pick_number` carrying `pB` overwrites the slot with
`pB`. -/
theorem processpick_overwrites_filled_slot :
    boardPlayerAt s1.board 1 = some pA ∧
    processpick s1 ⟨1, pB⟩ = Except.ok (s6, []) ∧
    boardPlayerAt s6.board 1 = some pB :=
  ⟨rfl, rfl, rfl⟩

/-- Claim C7. The rejected handler of the snapshot fetch is atomic: it sets
`status = "failed"` and stores the message, and every other field — board,
teams, pool, current pick index, total picks, selection — is exactly the
input state's. -/
theorem fetchinitialstate_rejected_frame (s : DraftState) (msg : String) :
    (fetchinitialstateRejected s msg).status = "failed" ∧
    (fetchinitialstateRejected s msg).error = some msg ∧
    (fetchinitialstateRejected s msg).board = s.board ∧
    (fetchinitialstateRejected s msg).teams = s.teams ∧
    (fetchinitialstateRejected s msg).availableplayers = s.availableplayers ∧
    (fetchinitialstateRejected s msg).currentpickindex = s.currentpickindex ∧
    (fetchinitialstateRejected s msg).totalpicks = s.totalpicks ∧
    (fetchinitialstateRejected s msg).selectedplayerdetails
      = s.selectedplayerdetails :=
  ⟨rfl, rfl, rfl, rfl, rfl, rfl, rfl, rfl⟩

/-- Claim C8, counterexample to the reporting clause. On the unknown-team
input `cs8`/`ev1` the run commits with the expected Board/pool mutation and
untouched teams, but its emitted-report list is `[]`: the omission is not
reported anywhere, refuting the claim's conjunct that it is. -/
theorem processpick_unknown_team_unreported :
    assocGet cs8.teams "TX" = none ∧
    processpick cs8 ev1 = Except.ok (s8, []) ∧
    s8.teams = cs8.teams ∧
    boardPlayerAt s8.board 1 = some pA ∧
    s8.availableplayers = [] :=
  ⟨rfl, rfl, rfl, rfl, rfl⟩

/-- Claim C8 as amended. For every state and event whose matching board slot
is empty and names a team id absent from `teams`, the run commits silently
(empty report list), leaves `teams` unchanged, sets the slot's player to the
event's player, and filters the player out of the pool. -/
theorem processpick_unknown_team_skips_roster (s : DraftState) (e : PickEvent)
    (slot : Pick)
    (hfind : s.board.find? (fun p => p.pick_number == e.pick_number) = some slot)
    (_hempty : slot.player = none)
    (hteam : assocGet s.teams slot.team_id = none) :
    ∃ s₂, processpick s e = Except.ok (s₂, []) ∧
      s₂.teams = s.teams ∧
      boardPlayerAt s₂.board e.pick_number = some e.player ∧
      s₂.availableplayers =
        s.availableplayers.filter (fun p => p.player_id != e.player.player_id) := by
  refine ⟨_, processpick_eq_of_found s e slot hfind, ?_, ?_, rfl⟩
  · simp [hteam]
  · simp [boardPlayerAt,
      find_updateFirstSlot s.board e.pick_number e.player slot hfind]

/-- Witness for the amended claim C8 at the concrete unknown-team input. -/
theorem processpick_unknown_team_skips_roster_witness :
    (cs8.board.find? (fun p => p.pick_number == ev1.pick_number)
      = some (⟨1, "TX", none⟩ : Pick)) ∧
    (Pick.player ⟨1, "TX", none⟩ = none) ∧
    (assocGet cs8.teams (Pick.team_id ⟨1, "TX", none⟩) = none) ∧
    (∃ s₂, processpick cs8 ev1 = Except.ok (s₂, []) ∧
      s₂.teams = cs8.teams ∧
      boardPlayerAt s₂.board ev1.pick_number = some ev1.player ∧
      s₂.availableplayers =
        cs8.availableplayers.filter
          (fun p => p.player_id != ev1.player.player_id)) :=
  ⟨rfl, rfl, rfl,
    processpick_unknown_team_skips_roster cs8 ev1 ⟨1, "TX", none⟩ rfl rfl rfl⟩

/-- Claim C9, counterexample to the roster-fallback clause. In `cs9` player
"p1" is drafted (absent from the pool, present once on T1's roster), yet the
pending handler seeds `selectedplayerdetails.player` with `none` rather than
with the roster record: no lookup across rosters is performed. -/
theorem fetchplayerhistory_pending_no_roster_fallback :
    poolCount cs9.availableplayers "p1" = 0 ∧
    rosterCount cs9.teams "p1" = 1 ∧
    (fetchplayerhistoryPending cs9 "p1").selectedplayerdetails
      = some { player := none, history := none, loading := true,
               error := none } :=
  ⟨rfl, rfl, rfl⟩

/-- Claim C9 as amended. The pending handler synchronously seeds
`selectedplayerdetails` with the first pool record matching the requested id
(`none` when the player is not in the pool — there is no roster fallback),
`loading = true` and empty history, and leaves board, teams, pool and pick
index untouched. -/
theorem fetchplayerhistory_pending_seeds_pool_only (s : DraftState)
    (pid : String) :
    (fetchplayerhistoryPending s pid).selectedplayerdetails
      = some { player := s.availableplayers.find? (fun p => p.player_id == pid),
               history := none, loading := true, error := none } ∧
    (fetchplayerhistoryPending s pid).board = s.board ∧
    (fetchplayerhistoryPending s pid).teams = s.teams ∧
    (fetchplayerhistoryPending s pid).availableplayers = s.availableplayers ∧
    (fetchplayerhistoryPending s pid).currentpickindex = s.currentpickindex :=
  ⟨rfl, rfl, rfl, rfl, rfl⟩

/-- Claim C10. When `selectedplayerdetails` is null (for instance after
`clearselectedplayer` ran while a fetch was in flight), both completion
handlers of the history fetch return the state entirely unchanged. -/
theorem history_completion_on_cleared_selection_frame (s : DraftState)
    (payload msg : String) (h : s.selectedplayerdetails = none) :
    fetchplayerhistoryFulfilled s payload = s ∧
    fetchplayerhistoryRejected s msg = s := by
  constructor
  · simp [fetchplayerhistoryFulfilled, h]
  · simp [fetchplayerhistoryRejected, h]

/-- Witness for claim C10: clearing the selection of `s1` yields a null
selection, and both completion handlers then leave the state unchanged. -/
theorem history_completion_on_cleared_selection_frame_witness :
    (clearselectedplayer s1).selectedplayerdetails = none ∧
    (fetchplayerhistoryFulfilled (clearselectedplayer s1) "historyA"
        = clearselectedplayer s1 ∧
      fetchplayerhistoryRejected (clearselectedplayer s1) "oops"
        = clearselectedplayer s1) :=
  ⟨rfl, history_completion_on_cleared_selection_frame (clearselectedplayer s1)
    "historyA" "oops" rfl⟩
